import Mathlib

/-!
Verification of the automatic inventory replenishment core against its
specification.  The Python modules (`inventory_analysis.py`, `data_processing.py`,
`api_handler.py`, `main.py`) are shallowly embedded: numeric quantities become
rationals, pandas data frames become lists of records, a raised exception
becomes an `Except.error` / `Option.none`, and logging side effects are dropped
(they do not influence any value the claims speak about).
-/

/-! ## Inventory analysis (`inventory_analysis.py`) -/

/-- `compute_adjusted_soh` from `inventory_analysis.py`:
`adjusted = soh + open_po - open_so`. -/
def compute_adjusted_soh (soh open_po open_so : ℚ) : ℚ :=
  soh + open_po - open_so

/-- `compute_min_max_inventory` from `inventory_analysis.py`:
`(forecast_qty * min_days, forecast_qty * max_days)`. -/
def compute_min_max_inventory (forecast_qty min_days max_days : ℚ) : ℚ × ℚ :=
  (forecast_qty * min_days, forecast_qty * max_days)

/-- `compute_procurement_quantity` from `inventory_analysis.py`:
`max(0, max_procurement_level - adjusted_soh)`. -/
def compute_procurement_quantity (adjusted_soh max_procurement_level : ℚ) : ℚ :=
  max 0 (max_procurement_level - adjusted_soh)

/-- The inline procurement decision of `main.py` (lines 73-79): branch on
`adjusted_soh < min_inv`, producing the quantity together with the
`procurement_reason` string built by the corresponding f-string. -/
def procurement_decision (adjusted_soh min_inv max_inv : ℚ) : ℚ × String :=
  if adjusted_soh < min_inv then
    (max 0 (max_inv - adjusted_soh),
     "Adjusted SOH " ++ toString adjusted_soh ++ " < Min Inventory " ++ toString min_inv)
  else
    (0,
     "Adjusted SOH " ++ toString adjusted_soh ++ " >= Min Inventory " ++ toString min_inv)

/-! ## Claims about the decision rule and the policy engine -/

/-- C1: for every adjusted stock-on-hand and pair of inventory targets, the
procurement decision yields `max 0 (maxInv - adjustedSoh)` when
`adjustedSoh < minInv` and `0` otherwise; the reason string records the branch
taken (the comparator) together with both compared values; and on the procure
branch the quantity agrees with `compute_procurement_quantity`. -/
theorem C1_decision_rule (a mn mx : ℚ) :
    procurement_decision a mn mx =
      ((if a < mn then max 0 (mx - a) else 0),
       "Adjusted SOH " ++ toString a ++
         (if a < mn then " < Min Inventory " else " >= Min Inventory ") ++ toString mn)
    ∧ (procurement_decision a mn mx).1 =
        (if a < mn then compute_procurement_quantity a mx else 0) := by
  by_cases h : a < mn <;>
    simp [procurement_decision, compute_procurement_quantity, h, String.append_assoc]

/-- C2 counterexample: with targets `minInv = 10`, `maxInv = 5` and
`adjustedSoh = 7` the computed quantity is `0` even though
`adjustedSoh < minInv`, so "quantity is 0 iff adjustedSoh ≥ minInventory"
fails for arbitrary target pairs. -/
theorem C2_counterexample :
    (procurement_decision 7 10 5).1 = 0 ∧ ¬ ((10 : ℚ) ≤ 7) := by
  constructor
  · norm_num [procurement_decision]
  · norm_num

/-- C2 (amended): the computed quantity is non-negative for every input; and
whenever `minInventory ≤ maxInventory` (which the pipeline guarantees for a
non-negative forecast with `maxDays ≥ minDays`), the quantity is `0` exactly
when `adjustedSoh ≥ minInventory`. -/
theorem C2_quantity_nonneg_iff (a mn mx : ℚ) :
    0 ≤ (procurement_decision a mn mx).1
    ∧ (mn ≤ mx → ((procurement_decision a mn mx).1 = 0 ↔ mn ≤ a)) := by
  constructor
  · by_cases hlt : a < mn
    · simp [procurement_decision, hlt, le_max_left]
    · simp [procurement_decision, hlt]
  · intro h
    by_cases hlt : a < mn
    · have hax : a < mx := lt_of_lt_of_le hlt h
      have hpos : 0 < mx - a := by linarith
      simp only [procurement_decision, hlt, if_true]
      constructor
      · intro h0
        have hmax : max 0 (mx - a) = mx - a := max_eq_right (le_of_lt hpos)
        rw [hmax] at h0
        exact absurd h0 (by linarith)
      · intro hge
        exact absurd hge (not_le.mpr hlt)
    · simp [procurement_decision, hlt, le_of_not_lt hlt]

/-- C2 witness: instantiating the amended claim at
`adjustedSoh = 60`, `minInv = 100`, `maxInv = 300`, discharging the
`minInv ≤ maxInv` hypothesis of the iff part there. -/
theorem C2_quantity_nonneg_iff_witness :
    0 ≤ (procurement_decision 60 100 300).1
    ∧ ((procurement_decision 60 100 300).1 = 0 ↔ (100 : ℚ) ≤ 60) :=
  ⟨(C2_quantity_nonneg_iff 60 100 300).1,
   (C2_quantity_nonneg_iff 60 100 300).2 (by norm_num)⟩

/-- C5 counterexample: with a negative forecast `-1` and day multipliers
`minDays = 1 ≤ maxDays = 2` the engine yields `minInventory = -1` and
`maxInventory = -2`, so `maxInventory ≥ minInventory` fails for arbitrary
forecast quantities. -/
theorem C5_counterexample :
    ((1 : ℚ) ≤ 2)
    ∧ (compute_min_max_inventory (-1) 1 2).2 < (compute_min_max_inventory (-1) 1 2).1 := by
  constructor
  · norm_num
  · norm_num [compute_min_max_inventory]

/-- C5 (amended): for every non-negative forecast quantity and day multipliers
with `maxDays ≥ minDays`, the engine returns exactly
`(forecast*minDays, forecast*maxDays)` and `maxInventory ≥ minInventory`. -/
theorem C5_min_max_inventory (f mn mx : ℚ) (hf : 0 ≤ f) (h : mn ≤ mx) :
    compute_min_max_inventory f mn mx = (f * mn, f * mx)
    ∧ (compute_min_max_inventory f mn mx).1 ≤ (compute_min_max_inventory f mn mx).2 := by
  refine ⟨rfl, ?_⟩
  simpa [compute_min_max_inventory] using mul_le_mul_of_nonneg_left h hf

/-- C5 witness: instantiating the amended claim at forecast `100`,
`minDays = 1`, `maxDays = 3`. -/
theorem C5_min_max_inventory_witness :
    (0 : ℚ) ≤ 100 ∧ (1 : ℚ) ≤ 3
    ∧ (compute_min_max_inventory 100 1 3 = (100 * 1, 100 * 3)
        ∧ (compute_min_max_inventory 100 1 3).1 ≤ (compute_min_max_inventory 100 1 3).2) :=
  ⟨by norm_num, by norm_num, C5_min_max_inventory 100 1 3 (by norm_num) (by norm_num)⟩

/-! ## Row validation (`data_processing.py`, `load_and_validate_csv`) -/

/-- A raw CSV row as produced by `csv.DictReader`: each required column holds
either a string or nothing (`none` models both a missing key and a `None`
filler for a short row). -/
structure RawRow where
  company : Option String
  warehouse : Option String
  date : Option String
  sku : Option String
  sales : Option String
  soh : Option String
  open_po : Option String
  open_so : Option String
  promotion : Option String
  festival : Option String
  min_days : Option String
  max_days : Option String
deriving DecidableEq, Repr

/-- The twelve required fields of a raw row, in the order checked by
`load_and_validate_csv`. -/
def requiredFields (r : RawRow) : List (Option String) :=
  [r.company, r.warehouse, r.date, r.sku, r.sales, r.soh, r.open_po, r.open_so,
   r.promotion, r.festival, r.min_days, r.max_days]

/-- The six fields that must additionally parse as numbers. -/
def numericFields (r : RawRow) : List (Option String) :=
  [r.sales, r.soh, r.open_po, r.open_so, r.min_days, r.max_days]

/-- A field passes the presence check of `load_and_validate_csv` when it is
present and not the empty string (`row[key] == '' or row[key] is None` raises). -/
def fieldPresent : Option String → Bool
  | none => false
  | some s => if s = "" then false else true

/-- A field passes the numeric check when it is present and `float(...)`
succeeds; the parser itself is a parameter (it stands for Python `float`). -/
def numOk (parse : String → Option ℚ) : Option String → Bool
  | none => false
  | some s => (parse s).isSome

/-- The per-row `try` block of `load_and_validate_csv`: the row is valid iff
every required field is present and non-empty and every numeric field parses. -/
def rowValid (parse : String → Option ℚ) (r : RawRow) : Bool :=
  (requiredFields r).all fieldPresent && (numericFields r).all (numOk parse)

/-- `load_and_validate_csv` from `data_processing.py`, restricted to its value
content: each row is appended to `valid_rows` when its `try` block succeeds and
to `malformed_rows` otherwise; the per-row `except` means no row ever aborts
the processing of the remaining rows.  Returns `(valid_rows, malformed_rows)`
in input order. -/
def load_and_validate_csv (parse : String → Option ℚ) :
    List RawRow → List RawRow × List RawRow
  | [] => ([], [])
  | r :: rs =>
    let rest := load_and_validate_csv parse rs
    if rowValid parse r then (r :: rest.1, rest.2) else (rest.1, r :: rest.2)

/-- Validation is the order-preserving partition of the input by `rowValid`. -/
theorem load_and_validate_csv_eq_filter (parse : String → Option ℚ) :
    ∀ rows : List RawRow,
      load_and_validate_csv parse rows
        = (rows.filter (fun r => rowValid parse r),
           rows.filter (fun r => !rowValid parse r)) := by
  intro rows
  induction rows with
  | nil => rfl
  | cons r rs ih =>
    by_cases h : rowValid parse r = true <;>
      simp [load_and_validate_csv, List.filter, ih, h]

/-- C6: validation partitions the input rows: a row with an absent/empty
required field or a numeric field that fails parsing lands in the malformed
output and never in the valid output, every other row lands in the valid
output, and every row of the input is processed (a malformed row never aborts
validation of the remaining rows — both output lists together enumerate the
whole input in order). -/
theorem C6_validation_partition (parse : String → Option ℚ) (rows : List RawRow) :
    load_and_validate_csv parse rows
      = (rows.filter (fun r => rowValid parse r),
         rows.filter (fun r => !rowValid parse r))
    ∧ (∀ r : RawRow,
        rowValid parse r = false ↔
          ((∃ f ∈ requiredFields r, fieldPresent f = false)
            ∨ ∃ f ∈ numericFields r, numOk parse f = false))
    ∧ ((load_and_validate_csv parse rows).1.length
        + (load_and_validate_csv parse rows).2.length = rows.length) := by
  refine ⟨load_and_validate_csv_eq_filter parse rows, ?_, ?_⟩
  · intro r
    rw [← Bool.not_eq_true, rowValid]
    simp only [Bool.and_eq_true, List.all_eq_true, not_and_or, not_forall]
    constructor
    · rintro (⟨f, hf, hnp⟩ | ⟨f, hf, hnp⟩)
      · exact Or.inl ⟨f, hf, by simpa using hnp⟩
      · exact Or.inr ⟨f, hf, by simpa using hnp⟩
    · rintro (⟨f, hf, hnp⟩ | ⟨f, hf, hnp⟩)
      · exact Or.inl ⟨f, hf, by simp [hnp]⟩
      · exact Or.inr ⟨f, hf, by simp [hnp]⟩
  · rw [load_and_validate_csv_eq_filter parse rows]
    simpa using (List.length_eq_length_filter_add (fun r => rowValid parse r)).symm

/-! ## Series preparation and the per-SKU batch (`data_processing.py`, `main.py`) -/

/-- A validated sales record as consumed by `main` after `pd.to_numeric` on the
six numeric columns; `date` is the parsed calendar date as an ordinal. -/
structure Row where
  company : String
  warehouse : String
  date : Nat
  sku : String
  promotion : String
  festival : String
  sales : ℚ
  soh : ℚ
  open_po : ℚ
  open_so : ℚ
  min_days : ℚ
  max_days : ℚ
deriving DecidableEq, Repr

/-- One row of the frame returned by `preprocess_data`: timestamp `ds`, demand
`y`, and the two regressors, which pandas `.map` leaves as NaN (here `none`)
when the flag is not a key of the mapping dict. -/
structure Prepped where
  ds : Nat
  y : ℚ
  promotion : Option ℚ
  festival : Option ℚ
deriving DecidableEq, Repr

/-- The regressor encoding of `preprocess_data`:
`.map({'YES': 1, 'NO': 0})` sends `"YES"` to `1`, `"NO"` to `0`, and any other
value to NaN (`none`) — a dict `.map` has no default. -/
def flagMap (s : String) : Option ℚ :=
  if s = "YES" then some 1 else if s = "NO" then some 0 else none

/-- `preprocess_data` from `data_processing.py`, keeping exactly the four
derived columns `ds`, `y`, `promotion`, `festival` in row order. -/
def preprocess_data (rows : List Row) : List Prepped :=
  rows.map (fun r => ⟨r.date, r.sales, flagMap r.promotion, flagMap r.festival⟩)

/-- The summary record accumulated by `main` for each processed SKU (the
`round(..., 2)` display rounding of the source is omitted: it only affects
presentation, not any claim). -/
structure Summary where
  sku : String
  forecast : ℚ
  soh : ℚ
  adjusted_soh : ℚ
  open_po : ℚ
  open_so : ℚ
  procurement_qty : ℚ
deriving DecidableEq, Repr

/-- The payload of a purchase-order API call issued by `main`. -/
structure OrderCall where
  sku : String
  quantity : ℚ
  company : String
  warehouse : String
deriving DecidableEq, Repr

/-- How a run of `main` can abort: the empty-valid-set guard, or an exception
escaping `forecast_sales` (which `main` does not catch). -/
inductive RunError
  | noValidData
  | forecastException (sku : String)
deriving DecidableEq, Repr

/-- `df[df['SKU'] == sku]`: the valid rows of one SKU, in input order. -/
def skuRows (valid : List Row) (sku : String) : List Row :=
  valid.filter (fun r => r.sku == sku)

/-- `sku_df.iloc[-1]` in `main`: the record whose inventory values feed the
procurement decision — the SKU's last valid row in input order. -/
def inventorySnapshot (valid : List Row) (sku : String) : Option Row :=
  (skuRows valid sku).getLast?

/-- Latest-occurring row of maximal date among `r :: rs` (ties go to the later
occurrence, matching the last element of a stable ascending sort). -/
def argLastMax (r : Row) (rs : List Row) : Row :=
  rs.foldl (fun acc x => if acc.date ≤ x.date then x else acc) r

/-- Modelled from the spec: the Inventory Snapshot as the last record after
sorting the SKU's valid rows by Date ascending (stable sort, so the snapshot is
the latest-occurring row of maximal date).  The source never sorts; this
definition exists to compare the spec's words with `inventorySnapshot`. -/
def snapshotSpec (valid : List Row) (sku : String) : Option Row :=
  match skuRows valid sku with
  | [] => none
  | r :: rs => some (argLastMax r rs)

/-- `df['SKU'].unique()`: distinct SKU values in order of first appearance. -/
def uniqueSkus (rows : List Row) : List String :=
  (rows.map (fun r => r.sku)).foldl (fun acc s => if s ∈ acc then acc else acc ++ [s]) []

/-- The body of the per-SKU loop of `main`, iterated over the SKU list.  The
forecaster stands for `forecast_sales` (Prophet): `none` models a raised
exception, which `main` does not catch, so it aborts the whole run.  An empty
SKU frame is skipped (`continue`); otherwise the snapshot row's values feed
`compute_min_max_inventory`, `compute_adjusted_soh` and the procurement
decision, one summary row is appended, and an API call is recorded when
`call_api and procurement_qty > 0`. -/
def processSkus (forecaster : List Prepped → Option ℚ) (call_api : Bool)
    (valid : List Row) :
    List String → Except RunError (List Summary × List OrderCall)
  | [] => Except.ok ([], [])
  | sku :: rest =>
    match inventorySnapshot valid sku with
    | none => processSkus forecaster call_api valid rest
    | some last =>
      match forecaster (preprocess_data (skuRows valid sku)) with
      | none => Except.error (RunError.forecastException sku)
      | some forecast_qty =>
        let mm := compute_min_max_inventory forecast_qty last.min_days last.max_days
        let adjusted_soh := compute_adjusted_soh last.soh last.open_po last.open_so
        let dec := procurement_decision adjusted_soh mm.1 mm.2
        let s : Summary :=
          ⟨sku, forecast_qty, last.soh, adjusted_soh, last.open_po, last.open_so, dec.1⟩
        let orders : List OrderCall :=
          if call_api ∧ 0 < dec.1 then [⟨sku, dec.1, last.company, last.warehouse⟩] else []
        match processSkus forecaster call_api valid rest with
        | Except.error e => Except.error e
        | Except.ok (ss, os) => Except.ok (s :: ss, orders ++ os)

/-- `main` from `main.py`, restricted to its value content: validation has
already produced `valid`; an empty valid set stops the run with an error before
any per-SKU work; otherwise each distinct SKU is processed in order of first
appearance. -/
def runBatch (forecaster : List Prepped → Option ℚ) (call_api : Bool)
    (valid : List Row) : Except RunError (List Summary × List OrderCall) :=
  if valid.isEmpty then Except.error RunError.noValidData
  else processSkus forecaster call_api valid (uniqueSkus valid)

/-! ## Claims about the batch pipeline -/

/-- For a list that is already sorted by date ascending, the latest-occurring
row of maximal date is simply the last element. -/
theorem argLastMax_eq_getLast : ∀ (rs : List Row) (r : Row),
    (r :: rs).Pairwise (fun a b => a.date ≤ b.date) →
    some (argLastMax r rs) = (r :: rs).getLast? := by
  intro rs
  induction rs with
  | nil => intro r _; simp [argLastMax]
  | cons x xs ih =>
    intro r h
    rw [List.pairwise_cons] at h
    have hrx : r.date ≤ x.date := h.1 x (by simp)
    have harg : argLastMax r (x :: xs) = argLastMax x xs := by
      simp [argLastMax, hrx]
    rw [harg, List.getLast?_cons_cons]
    exact ih x h.2

/-- A row of SKU "A" with the later date appearing earlier in the file. -/
def c3row_late : Row :=
  ⟨"Co", "W1", 2, "A", "NO", "NO", 10, 5, 0, 0, 1, 3⟩

/-- A row of SKU "A" with the earlier date appearing later in the file. -/
def c3row_early : Row :=
  ⟨"Co", "W1", 1, "A", "NO", "NO", 12, 9, 0, 0, 1, 3⟩

/-- C3 counterexample: with SKU "A"'s rows out of date order in the input (the
date-2 row first, the date-1 row last), the snapshot used by `main` is the
date-1 row (the last row in input order), not the last record after sorting by
Date ascending — and the run's summary indeed uses SOH 9 of the date-1 row, so
the values feeding the decision are not those of the most recent record. -/
theorem C3_counterexample :
    inventorySnapshot [c3row_late, c3row_early] "A" = some c3row_early
    ∧ snapshotSpec [c3row_late, c3row_early] "A" = some c3row_late
    ∧ inventorySnapshot [c3row_late, c3row_early] "A"
        ≠ snapshotSpec [c3row_late, c3row_early] "A"
    ∧ runBatch (fun _ => some 100) false [c3row_late, c3row_early]
        = Except.ok ([⟨"A", 100, 9, 9, 0, 0, 291⟩], []) := by
  refine ⟨rfl, rfl, by decide, ?_⟩
  norm_num [runBatch, processSkus, uniqueSkus, skuRows, inventorySnapshot,
    preprocess_data, flagMap, compute_min_max_inventory, compute_adjusted_soh,
    procurement_decision, compute_procurement_quantity, c3row_late, c3row_early]

/-- C3 (amended): the snapshot feeding the decision is the SKU's last valid row
in input order; no sorting is performed, so it matches the spec's
"last record after sorting by Date ascending" exactly when the SKU's valid rows
already appear in date-ascending order. -/
theorem C3_snapshot_last_in_input_order (valid : List Row) (sku : String)
    (h : (skuRows valid sku).Pairwise (fun a b => a.date ≤ b.date)) :
    inventorySnapshot valid sku = snapshotSpec valid sku := by
  cases hm : skuRows valid sku with
  | nil => simp [inventorySnapshot, snapshotSpec, hm]
  | cons r rs =>
    rw [hm] at h
    simp only [inventorySnapshot, snapshotSpec, hm]
    exact (argLastMax_eq_getLast rs r h).symm

/-- C3 witness: on a date-sorted input for SKU "A" the two snapshot notions
agree. -/
theorem C3_snapshot_witness :
    (skuRows [c3row_early, c3row_late] "A").Pairwise (fun a b => a.date ≤ b.date)
    ∧ inventorySnapshot [c3row_early, c3row_late] "A"
        = snapshotSpec [c3row_early, c3row_late] "A" :=
  ⟨by decide, C3_snapshot_last_in_input_order [c3row_early, c3row_late] "A" (by decide)⟩

/-- A row whose Promotion flag is neither "YES" nor "NO". -/
def c4row : Row :=
  ⟨"Co", "W1", 1, "A", "MAYBE", "NO", 10, 1, 0, 0, 1, 3⟩

/-- C4 counterexample: a Promotion value of "MAYBE" is mapped to a missing
value (pandas NaN, here `none`), not to `0`, so "any other value maps to 0"
fails. -/
theorem C4_counterexample :
    (preprocess_data [c4row]).map (fun p => p.promotion) = [none]
    ∧ (preprocess_data [c4row]).map (fun p => p.promotion) ≠ [some 0] := by
  exact ⟨rfl, by decide⟩

/-- C4 (amended): the series preparer maps "YES" to 1 and "NO" to 0, and any
other flag value to a missing value (NaN) rather than 0; the mapping itself is
total — it raises for no flag value, and every input row yields a prepared
row. -/
theorem C4_flag_mapping (rows : List Row) :
    (preprocess_data rows).map (fun p => p.promotion)
      = rows.map (fun r =>
          if r.promotion = "YES" then some (1 : ℚ)
          else if r.promotion = "NO" then some 0 else none)
    ∧ (preprocess_data rows).map (fun p => p.festival)
      = rows.map (fun r =>
          if r.festival = "YES" then some (1 : ℚ)
          else if r.festival = "NO" then some 0 else none)
    ∧ (preprocess_data rows).length = rows.length := by
  refine ⟨?_, ?_, by simp [preprocess_data]⟩ <;> simp [preprocess_data, flagMap]

/-- C7: on a batch whose valid set is empty the run stops with the
no-valid-data error, whatever the forecaster and the API flag — so no
forecasting, no procurement decision and no order submission happens. -/
theorem C7_empty_valid_set_stops (forecaster : List Prepped → Option ℚ)
    (call_api : Bool) :
    runBatch forecaster call_api [] = Except.error RunError.noValidData := rfl

/-- The single valid row of SKU "A" in the C8 scenario. -/
def c8rowA : Row :=
  ⟨"Co", "W1", 1, "A", "NO", "NO", 10, 1, 0, 0, 1, 3⟩

/-- First valid row of SKU "B" in the C8 scenario. -/
def c8rowB1 : Row :=
  ⟨"Co", "W1", 1, "B", "NO", "NO", 10, 1, 0, 0, 1, 3⟩

/-- Second valid row of SKU "B" in the C8 scenario. -/
def c8rowB2 : Row :=
  ⟨"Co", "W1", 2, "B", "NO", "NO", 11, 2, 0, 0, 1, 3⟩

/-- A forecaster with Prophet's observable failure mode: fitting a series with
fewer than two rows raises; otherwise it returns a point estimate. -/
def prophetLike : List Prepped → Option ℚ :=
  fun s => if s.length ≤ 1 then none else some 50

/-- C8: `main` wraps no handler around `forecast_sales`, so when SKU "A"'s
forecaster raises (here: a one-row series, which Prophet rejects) the whole
batch aborts with that exception — SKU "B", which on its own processes fine
and would submit an order, is never reached.  This contradicts the spec's
per-SKU failure isolation. -/
theorem C8_forecast_failure_aborts_batch :
    runBatch prophetLike true [c8rowA, c8rowB1, c8rowB2]
      = Except.error (RunError.forecastException "A")
    ∧ runBatch prophetLike true [c8rowB1, c8rowB2]
      = Except.ok ([⟨"B", 50, 2, 2, 0, 0, 148⟩], [⟨"B", 148, "Co", "W1"⟩]) := by
  refine ⟨rfl, ?_⟩
  norm_num [runBatch, processSkus, uniqueSkus, skuRows, inventorySnapshot,
    preprocess_data, flagMap, prophetLike, compute_min_max_inventory,
    compute_adjusted_soh, procurement_decision, compute_procurement_quantity,
    c8rowB1, c8rowB2]

/-! ## Order submission (`api_handler.py`) -/

/-- Observable outcome of a submission: the returned boolean, the number of
loop iterations entered, and the backoff waits performed. -/
structure POResult where
  success : Bool
  attempts : Nat
  sleeps : List ℚ
deriving DecidableEq, Repr

/-- `range(1, retries + 1)` from `place_purchase_order`. -/
def attemptNumbers (retries : Int) : List Nat :=
  List.range' 1 retries.toNat

/-- `place_purchase_order` from `api_handler.py`.  The body of its `try` block
is two logging calls followed by `return True`; since logging is a pure no-op
in this embedding, the first loop iteration always returns success, and the
`except` handler, its `time.sleep(5 * attempt)` backoff and the final
`return False` are reachable only when the attempt range is empty
(`retries < 1`). -/
def place_purchase_order (api_url token : String) (payload : OrderCall)
    (retries : Int) : POResult :=
  match attemptNumbers retries with
  | [] => ⟨false, 0, []⟩
  | attempt :: _ => ⟨true, attempt, []⟩

/-- Modelled from the spec: the Order Submitter state machine of §4.6 driven by
an external capability `failsOn` — attempt numbers count up from 1; a failed
attempt waits `backoffBase * attempt` before the next one, up to `maxAttempts`;
a successful attempt stops with success. -/
def submit_spec_go (failsOn : Nat → Bool) (backoffBase : ℚ) :
    Nat → Nat → List ℚ → POResult
  | attempt, 0, sleeps => ⟨false, attempt - 1, sleeps.reverse⟩
  | attempt, remaining + 1, sleeps =>
    if failsOn attempt then
      if remaining = 0 then ⟨false, attempt, sleeps.reverse⟩
      else
        submit_spec_go failsOn backoffBase (attempt + 1) remaining
          (backoffBase * (attempt : ℚ) :: sleeps)
    else ⟨true, attempt, sleeps.reverse⟩

/-- Modelled from the spec: entry point of the §4.6 submission state machine. -/
def submit_spec (failsOn : Nat → Bool) (backoffBase : ℚ) (maxAttempts : Nat) :
    POResult :=
  submit_spec_go failsOn backoffBase 1 maxAttempts []

/-- The purchase-order payload `main` builds for the example SKU. -/
def c9payload : OrderCall := ⟨"A1", 240, "Co", "W1"⟩

/-- C9 counterexample: with `maxAttempts = 3` and an always-failing capability
the claim demands failure after exactly 3 attempts (with waits 5·1 and 5·2, as
the spec's state machine produces) — but the implemented submitter never
consults any capability: it returns success after exactly one attempt with no
waits. -/
theorem C9_counterexample :
    place_purchase_order "https://dummy.api/purchase_order" "DUMMY_TOKEN"
        c9payload 3 = ⟨true, 1, []⟩
    ∧ place_purchase_order "https://dummy.api/purchase_order" "DUMMY_TOKEN"
        c9payload 3 ≠ ⟨false, 3, [5, 10]⟩
    ∧ submit_spec (fun _ => true) 5 3 = ⟨false, 3, [5 * 1, 5 * 2]⟩ := by
  refine ⟨rfl, by decide, ?_⟩
  norm_num [submit_spec, submit_spec_go]

/-- C9 (amended): the implemented submitter ignores the external ordering
capability entirely — for `retries ≥ 1` it returns success after exactly one
attempt and performs no backoff wait, and it returns failure (after zero
attempts) only when `retries < 1`; the retried-failure behaviour the claim
describes never occurs. -/
theorem C9_submitter_always_succeeds (api_url token : String)
    (payload : OrderCall) (retries : Int) :
    place_purchase_order api_url token payload retries
      = if 1 ≤ retries then ⟨true, 1, []⟩ else ⟨false, 0, []⟩ := by
  by_cases h : 1 ≤ retries
  · obtain ⟨k, hk⟩ : ∃ k, retries.toNat = k + 1 := ⟨retries.toNat - 1, by omega⟩
    simp [place_purchase_order, attemptNumbers, hk, List.range', h]
  · have h0 : retries.toNat = 0 := by omega
    simp [place_purchase_order, attemptNumbers, h0, h]

/-- The purchase-order payload used in the C10 instantiation. -/
def c10payload : OrderCall := ⟨"B7", 10, "Co", "W2"⟩

/-- C10: for every call with `retries ≥ 1`, `place_purchase_order` returns
`True` on the first loop iteration, sleeping never — the exception handler,
the backoff and the final failure return are unreachable, so the submit path
never reports failure. -/
theorem C10_first_attempt_success (api_url token : String) (payload : OrderCall)
    (retries : Int) (h : 1 ≤ retries) :
    place_purchase_order api_url token payload retries = ⟨true, 1, []⟩ := by
  obtain ⟨k, hk⟩ : ∃ k, retries.toNat = k + 1 := ⟨retries.toNat - 1, by omega⟩
  simp [place_purchase_order, attemptNumbers, hk, List.range']

/-- C10 witness: the default `retries = 3` call returns success after one
attempt with no sleeps. -/
theorem C10_first_attempt_success_witness :
    (1 : Int) ≤ 3
    ∧ place_purchase_order "https://dummy.api/purchase_order" "DUMMY_TOKEN"
        c10payload 3 = ⟨true, 1, []⟩ :=
  ⟨by norm_num,
   C10_first_attempt_success "https://dummy.api/purchase_order" "DUMMY_TOKEN"
     c10payload 3 (by norm_num)⟩
